import Mathlib

/-!
Formal model of the resilient network-retrieval layer of the airgapped-bundle
repository: the functions `urlopen_with_retry` and `urlretrieve_with_retry`
in `airgap/scripts/utils.py`.

The network, the filesystem and the Python standard library are external to
the repository, so they are modelled as oracles:

* attempt outcomes are supplied by a function `net : Nat → ...` mapping the
  1-based attempt number to what the environment does on that attempt
  (raise an exception of a given class, or deliver a response with an
  optional Content-Length header and a body);
* a downloaded body is described abstractly by its byte count together with
  what the Python `zipfile` module would report about the written bytes:
  whether `ZipFile(...)`/`testzip()` raises `BadZipFile`, and the value
  `testzip()` returns (the name of the first member with a bad checksum,
  or `None`);
* the destination file is modelled as `Option Nat`: `none` when the path
  does not exist, `some sz` when a file of `sz` bytes is present.

Both functions are embedded as executable Lean functions that additionally
return a trace of their observable effects (attempt starts, file writes,
retry prints, sleeps, file removals), so that temporal claims about the
ordering of backoff sleeps and partial-file cleanup can be stated.
-/

deriving instance DecidableEq for Except

namespace AirgapRetry

/-- The Python exception classes that can reach the `except` clauses of
`utils.py`, with the CPython inheritance chains that matter here:
`HTTPError ⊂ URLError ⊂ OSError`, and `TimeoutError`, `PermissionError`,
`FileNotFoundError` are subclasses of `OSError`; `IOError` is an alias of
`OSError` in Python 3.  `ValueError` (raised e.g. by `urlopen` on a
malformed URL) and `KeyboardInterrupt` are outside the `OSError` tree. -/
inductive PyExcClass
  | osError
  | urlError
  | httpError
  | timeoutError
  | permissionError
  | fileNotFoundError
  | valueError
  | keyboardInterrupt
  deriving DecidableEq, BEq

/-- The inheritance chain of a class, the class itself included
(restricted to the classes modelled above). -/
def ancestors : PyExcClass → List PyExcClass
  | .osError => [.osError]
  | .urlError => [.urlError, .osError]
  | .httpError => [.httpError, .urlError, .osError]
  | .timeoutError => [.timeoutError, .osError]
  | .permissionError => [.permissionError, .osError]
  | .fileNotFoundError => [.fileNotFoundError, .osError]
  | .valueError => [.valueError]
  | .keyboardInterrupt => [.keyboardInterrupt]

/-- Python `isinstance`-style subclass test, which is what an `except`
clause uses to decide whether it catches a raised exception. -/
def isSubclassOf (a b : PyExcClass) : Bool :=
  (ancestors a).contains b

/-- The integrity failures raised by `urlretrieve_with_retry` itself
(all raised as `IOError`, lines 88, 92 and 104 of utils.py). -/
inductive DlErrKind
  | incomplete (expected got : Nat)
  | empty
  | badArchive
  deriving DecidableEq, BEq

/-- An exception value: either one injected by the environment (tagged
with an instance id so that re-raising "the same object" is expressible),
or one of the IOError values raised by the verification code. -/
inductive PyExc
  | ext (cls : PyExcClass) (id : Nat)
  | dlErr (k : DlErrKind)
  deriving DecidableEq, BEq

/-- The class of an exception value.  The IOError raised by the
verification code has class `OSError` because `IOError` is an alias of
`OSError` in Python 3. -/
def clsOf : PyExc → PyExcClass
  | .ext c _ => c
  | .dlErr _ => .osError

/-- The `except (urllib.error.URLError, TimeoutError, OSError)` clause of
`urlopen_with_retry` (utils.py line 47): true when the raised class is a
subclass of one of the listed classes. -/
def caughtConn (c : PyExcClass) : Bool :=
  isSubclassOf c .urlError || isSubclassOf c .timeoutError || isSubclassOf c .osError

/-- The `except (urllib.error.URLError, TimeoutError, OSError, IOError)`
clause of `urlretrieve_with_retry` (utils.py line 107); `IOError` is the
same class as `OSError`, hence the repeated disjunct. -/
def caughtFetch (c : PyExcClass) : Bool :=
  isSubclassOf c .urlError || isSubclassOf c .timeoutError
    || isSubclassOf c .osError || isSubclassOf c .osError

/-! ### Connector: urlopen_with_retry -/

/-- Observable events of a `urlopen_with_retry` run: the start of the
attempt numbered `k`, and a backoff sleep of `w` time units. -/
inductive CEvent
  | attemptStart (k : Nat)
  | sleep (w : Nat)
  deriving DecidableEq, BEq

/-- Result of a `urlopen_with_retry` run: the returned value (`some h` is
a live response handle, `none` models the Python function falling off the
loop and returning None, possible only when `max_retries = 0`) or the
propagated exception, together with the trace of observable events. -/
structure ConnRes where
  result : Except PyExc (Option Nat)
  trace : List CEvent
  deriving DecidableEq

/-- The `for attempt in range(1, max_retries + 1)` loop of
`urlopen_with_retry` (utils.py lines 39-58).  `attempt` is the Python loop
variable; `r` is the number of loop iterations still to run, so the Python
guard `attempt < max_retries` (line 50) is `r ≠ 1` at iteration entry,
i.e. `r' ≠ 0` after peeling the current iteration.  `net k` is what
`urllib.request.urlopen` does on attempt `k`: deliver a handle or raise.
On a caught failure with attempts remaining the loop sleeps `2 ^ attempt`
(line 51) and continues; on the final attempt (or an uncaught class) the
exception propagates unchanged (bare `raise`, line 58). -/
def urlopenGo (net : Nat → Except PyExc Nat) : Nat → Nat → ConnRes
  | _, 0 => ⟨.ok none, []⟩
  | attempt, r' + 1 =>
    match net attempt with
    | .ok h => ⟨.ok (some h), [.attemptStart attempt]⟩
    | .error e =>
      if caughtConn (clsOf e) then
        if r' ≠ 0 then
          let rest := urlopenGo net (attempt + 1) r'
          ⟨rest.result, .attemptStart attempt :: .sleep (2 ^ attempt) :: rest.trace⟩
        else ⟨.error e, [.attemptStart attempt]⟩
      else ⟨.error e, [.attemptStart attempt]⟩

/-- `urlopen_with_retry(url, max_retries, timeout)` of utils.py lines
36-58, with the network abstracted as `net`. -/
def urlopen_with_retry (net : Nat → Except PyExc Nat) (maxRetries : Nat) : ConnRes :=
  urlopenGo net 1 maxRetries

/-- The attempt numbers recorded in a Connector trace, in order. -/
def connAttemptNums (t : List CEvent) : List Nat :=
  t.filterMap fun e => match e with | .attemptStart k => some k | _ => none

/-- The backoff sleeps recorded in a Connector trace, in order. -/
def connSleeps (t : List CEvent) : List Nat :=
  t.filterMap fun e => match e with | .sleep w => some w | _ => none

/-! ### Fetcher: urlretrieve_with_retry -/

/-- Abstract description of a fully streamed response body: its byte
count, and the two facts about the written bytes that the `zipfile`
oracle can report.  `zipOpenOk = false` means `ZipFile(filename)` or
`testzip()` raises `BadZipFile`; `testzipResult` is the return value of
`testzip()` when no exception is raised: the name of the first archive
member whose stored CRC does not match its data, or `none` when all
members check out. -/
structure BodyDesc where
  size : Nat
  zipOpenOk : Bool
  testzipResult : Option String
  deriving DecidableEq, BEq

/-- What the environment does on one Fetcher attempt: `connRaise e` means
`urlopen` raises `e`; `openFileRaise cl e` means the connection succeeds
(Content-Length header `cl`) but `open(filename, wb-mode)` raises `e`
(for example a `PermissionError`); `resp cl body` means the connection
succeeds and the whole body streams to disk. -/
inductive FetchAttempt
  | connRaise (e : PyExc)
  | openFileRaise (cl : Option Nat) (e : PyExc)
  | resp (cl : Option Nat) (body : BodyDesc)
  deriving DecidableEq, BEq

/-- Outcome of a single Fetcher attempt body (utils.py lines 64-106):
success, or an exception together with the size of the file the attempt
left at the destination (`none` when the attempt never created it). -/
inductive AttemptRes
  | success (written : Nat)
  | fail (e : PyExc) (written : Option Nat)
  deriving DecidableEq, BEq

/-- Whether an attempt outcome is a success. -/
def AttemptRes.isSuccess : AttemptRes → Bool
  | .success _ => true
  | .fail _ _ => false

/-- Whether an attempt outcome is a failure whose class is caught by the
Fetcher except clause (so the retry logic applies to it). -/
def AttemptRes.retryFail : AttemptRes → Bool
  | .success _ => false
  | .fail e _ => caughtFetch (clsOf e)

/-- The size-verification guard of utils.py line 87:
`if expected_size and downloaded_size != expected_size`.  `expected_size`
is `None` when the header was absent, else the parsed integer; Python
truthiness makes the declared value `0` falsy, so the guard is skipped
in that case. -/
def sizeMismatch (cl : Option Nat) (size : Nat) : Bool :=
  match cl with
  | some n => n != 0 && size != n
  | none => false

/-- The filename suffix test of utils.py line 95:
`filename.endswith(".vsix") or filename.endswith(".zip")`. -/
def strEndsWith (s suf : String) : Bool :=
  s.toList.reverse.take suf.toList.length == suf.toList.reverse

/-- Whether the destination path triggers the archive validation step. -/
def isArchiveName (filename : String) : Bool :=
  strEndsWith filename ".vsix" || strEndsWith filename ".zip"

/-- One attempt body of `urlretrieve_with_retry` (utils.py lines 64-106),
given the archive flag of the destination and what the environment does:
read the Content-Length header, stream the body to the destination
(truncating any previous content), then in order

* line 87: fail with IOError "incomplete" when a nonzero length was
  declared and the byte count differs;
* line 91: fail with IOError "empty" when zero bytes were downloaded;
* lines 95-104: for archive destinations, open the file with `ZipFile`
  and call `testzip()`; only a raised `BadZipFile` fails the attempt
  (as IOError "not a valid archive") — the value returned by `testzip()`
  is discarded (line 100);
* otherwise return (success). -/
def attemptStep (isAr : Bool) (a : FetchAttempt) : AttemptRes :=
  match a with
  | .connRaise e => .fail e none
  | .openFileRaise _ e => .fail e none
  | .resp cl body =>
    if sizeMismatch cl body.size then
      .fail (.dlErr (.incomplete (cl.getD 0) body.size)) (some body.size)
    else if body.size == 0 then
      .fail (.dlErr .empty) (some body.size)
    else if isAr && !body.zipOpenOk then
      .fail (.dlErr .badArchive) (some body.size)
    else
      .success body.size

/-- Observable events of a `urlretrieve_with_retry` run.  `attemptStart k f`
records the state of the destination path (`f`) when attempt `k` begins;
`fileWrite sz` is the streaming of `sz` bytes into the (truncated)
destination; `printRetry k w` is the retry message of line 112; `sleep w f`
is the backoff sleep of line 114, with `f` the state of the destination
path while the sleep runs; `remove sz` is the deletion of lines 115-116
(emitted only when the path exists, matching the `os.path.exists` guard). -/
inductive FEvent
  | attemptStart (k : Nat) (fileAtStart : Option Nat)
  | fileWrite (size : Nat)
  | printRetry (k w : Nat)
  | sleep (w : Nat) (fileDuring : Option Nat)
  | remove (size : Nat)
  deriving DecidableEq, BEq

/-- Result of a `urlretrieve_with_retry` run: the returned value (the
Python function returns None on success, modelled as `Unit`) or the
propagated exception, the final state of the destination path, and the
trace of observable events. -/
structure FetchRes where
  result : Except PyExc Unit
  file : Option Nat
  trace : List FEvent
  deriving DecidableEq

/-- The `for attempt in range(1, max_retries + 1)` loop of
`urlretrieve_with_retry` (utils.py lines 63-120).  `attempt` is the Python
loop variable, `r` the number of iterations still to run and `file` the
current state of the destination path.  On a failure whose class the
except clause catches, with attempts remaining (`r' ≠ 0`), the handler of
lines 110-116 runs in source order: print the retry message, sleep
`2 ^ attempt`, then delete the destination file if it exists — note the
deletion happens after the sleep.  On final-attempt failure (lines
117-120) the exception is re-raised unchanged with no cleanup;
an uncaught class propagates out of the loop at once. -/
def fetchGo (isAr : Bool) (net : Nat → FetchAttempt) : Nat → Nat → Option Nat → FetchRes
  | _, 0, file => ⟨.ok (), file, []⟩
  | attempt, r' + 1, file =>
    match attemptStep isAr (net attempt) with
    | .success sz => ⟨.ok (), some sz, [.attemptStart attempt file, .fileWrite sz]⟩
    | .fail e w =>
      let file1 : Option Nat := match w with | some sz => some sz | none => file
      let pre : List FEvent :=
        .attemptStart attempt file ::
          (match w with | some sz => [.fileWrite sz] | none => [])
      if caughtFetch (clsOf e) then
        if r' ≠ 0 then
          let rest := fetchGo isAr net (attempt + 1) r' none
          ⟨rest.result, rest.file,
            pre ++ (FEvent.printRetry attempt (2 ^ attempt) ::
              FEvent.sleep (2 ^ attempt) file1 ::
              (match file1 with | some sz => [FEvent.remove sz] | none => []) ++ rest.trace)⟩
        else ⟨.error e, file1, pre⟩
      else ⟨.error e, file1, pre⟩

/-- `urlretrieve_with_retry(url, filename, max_retries, timeout)` of
utils.py lines 60-120, with the network and the zipfile oracle abstracted
as `net` and the initial destination state as `file0`. -/
def urlretrieve_with_retry (filename : String) (net : Nat → FetchAttempt)
    (maxRetries : Nat) (file0 : Option Nat) : FetchRes :=
  fetchGo (isArchiveName filename) net 1 maxRetries file0

/-- The attempt numbers recorded in a Fetcher trace, in order. -/
def fetchAttemptNums (t : List FEvent) : List Nat :=
  t.filterMap fun e => match e with | .attemptStart k _ => some k | _ => none

/-- The backoff sleeps recorded in a Fetcher trace, in order. -/
def fetchSleeps (t : List FEvent) : List Nat :=
  t.filterMap fun e => match e with | .sleep w _ => some w | _ => none

/-- The DownloadOutcome record of the specification data model (spec §3):
claimed to be produced once per successful Fetcher call. -/
structure DownloadOutcome where
  bytes_written : Nat
  declared_size : Option Nat
  validated : Bool
  deriving DecidableEq, BEq



theorem connAttemptNums_start (k : Nat) (t : List CEvent) :
    connAttemptNums (CEvent.attemptStart k :: t) = k :: connAttemptNums t := by
  simp [connAttemptNums]

theorem connAttemptNums_sleep (w : Nat) (t : List CEvent) :
    connAttemptNums (CEvent.sleep w :: t) = connAttemptNums t := by
  simp [connAttemptNums]

theorem connSleeps_start (k : Nat) (t : List CEvent) :
    connSleeps (CEvent.attemptStart k :: t) = connSleeps t := by
  simp [connSleeps]

theorem connSleeps_sleep (w : Nat) (t : List CEvent) :
    connSleeps (CEvent.sleep w :: t) = w :: connSleeps t := by
  simp [connSleeps]

/-- Unfolding lemma: a caught failure on the last remaining attempt re-raises. -/
theorem urlopenGo_last_fail (net : Nat → Except PyExc Nat) (a : Nat) (e : PyExc)
    (he : net a = .error e) (hc : caughtConn (clsOf e) = true) :
    urlopenGo net a 1 = ⟨.error e, [.attemptStart a]⟩ := by
  simp [urlopenGo, he, hc]

/-- Unfolding lemma: a caught failure with attempts remaining sleeps and recurses. -/
theorem urlopenGo_step_fail (net : Nat → Except PyExc Nat) (a r' : Nat) (e : PyExc)
    (he : net a = .error e) (hc : caughtConn (clsOf e) = true) (hr : r' ≠ 0) :
    urlopenGo net a (r' + 1) =
      ⟨(urlopenGo net (a + 1) r').result,
       .attemptStart a :: .sleep (2 ^ a) :: (urlopenGo net (a + 1) r').trace⟩ := by
  simp [urlopenGo, he, hc, hr]

theorem urlopenGo_allFail (net : Nat → Except PyExc Nat) (errs : Nat → PyExc) :
    ∀ r, 1 ≤ r → ∀ a,
      (∀ k ∈ List.range' a r, net k = .error (errs k) ∧ caughtConn (clsOf (errs k)) = true) →
      (urlopenGo net a r).result = .error (errs (a + r - 1)) ∧
      connAttemptNums (urlopenGo net a r).trace = List.range' a r ∧
      connSleeps (urlopenGo net a r).trace = (List.range' a (r - 1)).map (fun k => 2 ^ k) := by
  intro r
  induction r with
  | zero => omega
  | succ r ih =>
    intro _ a h
    have ha := h a (by rw [List.range'_succ]; exact List.mem_cons_self _ _)
    rcases r with _ | r'
    · rw [urlopenGo_last_fail net a (errs a) ha.1 ha.2]
      simp [connAttemptNums, connSleeps, List.range'_succ]
    · have hrest := ih (by omega) (a + 1)
        (fun k hk => h k (by rw [List.range'_succ]; exact List.mem_cons_of_mem _ hk))
      rw [urlopenGo_step_fail net a (r' + 1) (errs a) ha.1 ha.2 (by omega)]
      obtain ⟨h1, h2, h3⟩ := hrest
      refine ⟨?_, ?_, ?_⟩
      · rw [h1]
        have : a + 1 + (r' + 1) - 1 = a + (r' + 1 + 1) - 1 := by omega
        rw [this]
      · rw [connAttemptNums_start, connAttemptNums_sleep, h2]
        simp [List.range'_succ]
      · have hr1 : (r' + 1 + 1) - 1 = r' + 1 := by omega
        have hr2 : (r' + 1) - 1 = r' := by omega
        rw [connSleeps_start, connSleeps_sleep, h3, hr1, hr2]
        simp [List.range'_succ]

theorem fetchAttemptNums_nil : fetchAttemptNums [] = [] := rfl

theorem fetchAttemptNums_append (s t : List FEvent) :
    fetchAttemptNums (s ++ t) = fetchAttemptNums s ++ fetchAttemptNums t := by
  simp [fetchAttemptNums]

theorem fetchAttemptNums_start (k : Nat) (f : Option Nat) (t : List FEvent) :
    fetchAttemptNums (FEvent.attemptStart k f :: t) = k :: fetchAttemptNums t := by
  simp [fetchAttemptNums]

theorem fetchAttemptNums_write (sz : Nat) (t : List FEvent) :
    fetchAttemptNums (FEvent.fileWrite sz :: t) = fetchAttemptNums t := by
  simp [fetchAttemptNums]

theorem fetchAttemptNums_print (k w : Nat) (t : List FEvent) :
    fetchAttemptNums (FEvent.printRetry k w :: t) = fetchAttemptNums t := by
  simp [fetchAttemptNums]

theorem fetchAttemptNums_sleep (w : Nat) (f : Option Nat) (t : List FEvent) :
    fetchAttemptNums (FEvent.sleep w f :: t) = fetchAttemptNums t := by
  simp [fetchAttemptNums]

theorem fetchAttemptNums_remove (sz : Nat) (t : List FEvent) :
    fetchAttemptNums (FEvent.remove sz :: t) = fetchAttemptNums t := by
  simp [fetchAttemptNums]

theorem fetchSleeps_nil : fetchSleeps [] = [] := rfl

theorem fetchSleeps_append (s t : List FEvent) :
    fetchSleeps (s ++ t) = fetchSleeps s ++ fetchSleeps t := by
  simp [fetchSleeps]

theorem fetchSleeps_start (k : Nat) (f : Option Nat) (t : List FEvent) :
    fetchSleeps (FEvent.attemptStart k f :: t) = fetchSleeps t := by
  simp [fetchSleeps]

theorem fetchSleeps_write (sz : Nat) (t : List FEvent) :
    fetchSleeps (FEvent.fileWrite sz :: t) = fetchSleeps t := by
  simp [fetchSleeps]

theorem fetchSleeps_print (k w : Nat) (t : List FEvent) :
    fetchSleeps (FEvent.printRetry k w :: t) = fetchSleeps t := by
  simp [fetchSleeps]

theorem fetchSleeps_sleep (w : Nat) (f : Option Nat) (t : List FEvent) :
    fetchSleeps (FEvent.sleep w f :: t) = w :: fetchSleeps t := by
  simp [fetchSleeps]

theorem fetchSleeps_remove (sz : Nat) (t : List FEvent) :
    fetchSleeps (FEvent.remove sz :: t) = fetchSleeps t := by
  simp [fetchSleeps]

/-- Unfolding lemma: a successful attempt returns at once. -/
theorem fetchGo_success_eq (isAr : Bool) (net : Nat → FetchAttempt) (a r' : Nat)
    (file : Option Nat) (sz : Nat) (hstep : attemptStep isAr (net a) = .success sz) :
    fetchGo isAr net a (r' + 1) file =
      ⟨.ok (), some sz, [.attemptStart a file, .fileWrite sz]⟩ := by
  simp [fetchGo, hstep]

/-- Unfolding lemma: a caught failure that wrote `sz` bytes, with attempts
remaining, prints, sleeps with the partial file still present, removes it,
and recurses on an absent destination. -/
theorem fetchGo_step_fail_written (isAr : Bool) (net : Nat → FetchAttempt) (a r' : Nat)
    (file : Option Nat) (e : PyExc) (sz : Nat)
    (hstep : attemptStep isAr (net a) = .fail e (some sz))
    (hc : caughtFetch (clsOf e) = true) (hr : r' ≠ 0) :
    fetchGo isAr net a (r' + 1) file =
      ⟨(fetchGo isAr net (a + 1) r' none).result, (fetchGo isAr net (a + 1) r' none).file,
       .attemptStart a file :: .fileWrite sz :: .printRetry a (2 ^ a) ::
         .sleep (2 ^ a) (some sz) :: .remove sz :: (fetchGo isAr net (a + 1) r' none).trace⟩ := by
  simp [fetchGo, hstep, hc, hr]

/-- Unfolding lemma: a caught failure that never created the file, with
attempts remaining; the handler still removes whatever file was already at
the destination before sleeping ends. -/
theorem fetchGo_step_fail_nowrite (isAr : Bool) (net : Nat → FetchAttempt) (a r' : Nat)
    (file : Option Nat) (e : PyExc)
    (hstep : attemptStep isAr (net a) = .fail e none)
    (hc : caughtFetch (clsOf e) = true) (hr : r' ≠ 0) :
    fetchGo isAr net a (r' + 1) file =
      ⟨(fetchGo isAr net (a + 1) r' none).result, (fetchGo isAr net (a + 1) r' none).file,
       .attemptStart a file :: .printRetry a (2 ^ a) :: .sleep (2 ^ a) file ::
         ((match file with | some sz => [FEvent.remove sz] | none => []) ++
           (fetchGo isAr net (a + 1) r' none).trace)⟩ := by
  cases file <;> simp [fetchGo, hstep, hc, hr]

/-- Unfolding lemma: a caught failure on the final attempt re-raises with
no cleanup. -/
theorem fetchGo_last_fail (isAr : Bool) (net : Nat → FetchAttempt) (a : Nat)
    (file : Option Nat) (e : PyExc) (w : Option Nat)
    (hstep : attemptStep isAr (net a) = .fail e w)
    (hc : caughtFetch (clsOf e) = true) :
    fetchGo isAr net a 1 file =
      ⟨.error e, (match w with | some sz => some sz | none => file),
       .attemptStart a file ::
         (match w with | some sz => [FEvent.fileWrite sz] | none => [])⟩ := by
  cases w <;> simp [fetchGo, hstep, hc]

/-- Unfolding lemma: a failure whose class the except clause does not
catch propagates out of the loop at once, with no cleanup. -/
theorem fetchGo_uncaught (isAr : Bool) (net : Nat → FetchAttempt) (a r' : Nat)
    (file : Option Nat) (e : PyExc) (w : Option Nat)
    (hstep : attemptStep isAr (net a) = .fail e w)
    (hc : caughtFetch (clsOf e) = false) :
    fetchGo isAr net a (r' + 1) file =
      ⟨.error e, (match w with | some sz => some sz | none => file),
       .attemptStart a file ::
         (match w with | some sz => [FEvent.fileWrite sz] | none => [])⟩ := by
  cases w <;> simp [fetchGo, hstep, hc]

/-- Master lemma: when every remaining attempt fails with a caught class,
the loop makes exactly the remaining attempts, sleeps the exponential
backoff after each failed attempt except the last, re-raises the error of
the last attempt, and leaves at the destination whatever the last attempt
wrote (cleanup runs only between attempts). -/
theorem fetchGo_allFail (isAr : Bool) (net : Nat → FetchAttempt)
    (eF : Nat → PyExc) (wF : Nat → Option Nat) :
    ∀ r, 1 ≤ r → ∀ a file0,
      (∀ k ∈ List.range' a r,
        attemptStep isAr (net k) = .fail (eF k) (wF k) ∧ caughtFetch (clsOf (eF k)) = true) →
      (fetchGo isAr net a r file0).result = .error (eF (a + r - 1)) ∧
      (fetchGo isAr net a r file0).file =
        (match wF (a + r - 1) with
         | some sz => some sz
         | none => if r = 1 then file0 else none) ∧
      fetchAttemptNums (fetchGo isAr net a r file0).trace = List.range' a r ∧
      fetchSleeps (fetchGo isAr net a r file0).trace = (List.range' a (r - 1)).map (fun k => 2 ^ k) := by
  intro r
  induction r with
  | zero => omega
  | succ r ih =>
    intro _ a file0 h
    have ha := h a (by rw [List.range'_succ]; exact List.mem_cons_self _ _)
    rcases r with _ | r'
    · cases hw : wF a with
      | some sz =>
        rw [fetchGo_last_fail isAr net a file0 (eF a) (some sz) (hw ▸ ha.1) ha.2]
        simp [hw, fetchAttemptNums_start, fetchAttemptNums_write, fetchAttemptNums_nil,
          fetchSleeps_start, fetchSleeps_write, fetchSleeps_nil, List.range'_succ]
      | none =>
        rw [fetchGo_last_fail isAr net a file0 (eF a) none (hw ▸ ha.1) ha.2]
        simp [hw, fetchAttemptNums_start, fetchAttemptNums_nil,
          fetchSleeps_start, fetchSleeps_nil, List.range'_succ]
    · have hrest := ih (by omega) (a + 1) none
        (fun k hk => h k (by rw [List.range'_succ]; exact List.mem_cons_of_mem _ hk))
      obtain ⟨h1, h2, h3, h4⟩ := hrest
      have hidx : a + 1 + (r' + 1) - 1 = a + (r' + 1 + 1) - 1 := by omega
      have hfile2 : (fetchGo isAr net (a + 1) (r' + 1) none).file =
          (match wF (a + (r' + 1 + 1) - 1) with
           | some sz => some sz
           | none => if r' + 1 + 1 = 1 then file0 else none) := by
        rw [h2, hidx]
        have hne : r' + 1 + 1 ≠ 1 := by omega
        cases wF (a + (r' + 1 + 1) - 1) <;> simp [hne]
      cases hw : wF a with
      | some sz =>
        rw [fetchGo_step_fail_written isAr net a (r' + 1) file0 (eF a) sz (hw ▸ ha.1) ha.2
          (by omega)]
        refine ⟨by rw [h1, hidx], by rw [hfile2], ?_, ?_⟩
        · rw [fetchAttemptNums_start, fetchAttemptNums_write, fetchAttemptNums_print,
            fetchAttemptNums_sleep, fetchAttemptNums_remove, h3]
          simp [List.range'_succ]
        · rw [fetchSleeps_start, fetchSleeps_write, fetchSleeps_print, fetchSleeps_sleep,
            fetchSleeps_remove, h4]
          simp [List.range'_succ]
      | none =>
        rw [fetchGo_step_fail_nowrite isAr net a (r' + 1) file0 (eF a) (hw ▸ ha.1) ha.2
          (by omega)]
        refine ⟨by rw [h1, hidx], by rw [hfile2], ?_, ?_⟩
        · cases file0 <;>
            · rw [fetchAttemptNums_start, fetchAttemptNums_print, fetchAttemptNums_sleep]
              simp only [List.nil_append, List.cons_append, fetchAttemptNums_remove,
                fetchAttemptNums_append, fetchAttemptNums_nil]
              rw [h3]
              simp [List.range'_succ]
        · cases file0 <;>
            · rw [fetchSleeps_start, fetchSleeps_print, fetchSleeps_sleep]
              simp only [List.nil_append, List.cons_append, fetchSleeps_remove,
                fetchSleeps_append, fetchSleeps_nil]
              rw [h4]
              simp [List.range'_succ]

/-- Unfolding lemma (Connector): an uncaught class propagates at once. -/
theorem urlopenGo_uncaught (net : Nat → Except PyExc Nat) (a r' : Nat) (e : PyExc)
    (he : net a = .error e) (hc : caughtConn (clsOf e) = false) :
    urlopenGo net a (r' + 1) = ⟨.error e, [.attemptStart a]⟩ := by
  simp [urlopenGo, he, hc]

/-- Master lemma (Connector): after `j` attempts failing with caught
classes, an attempt failing with an uncaught class propagates that error
at once: no further attempt, no further sleep. -/
theorem urlopenGo_firstUncaught (net : Nat → Except PyExc Nat) (errs : Nat → PyExc) :
    ∀ j a r e, j < r →
      (∀ k ∈ List.range' a j, net k = .error (errs k) ∧ caughtConn (clsOf (errs k)) = true) →
      net (a + j) = .error e → caughtConn (clsOf e) = false →
      (urlopenGo net a r).result = .error e ∧
      connAttemptNums (urlopenGo net a r).trace = List.range' a (j + 1) ∧
      connSleeps (urlopenGo net a r).trace = (List.range' a j).map (fun k => 2 ^ k) := by
  intro j
  induction j with
  | zero =>
    intro a r e hj _ he hc
    rcases r with _ | r'
    · omega
    · rw [urlopenGo_uncaught net a r' e (by simpa using he) hc]
      simp [connAttemptNums, connSleeps, List.range'_succ]
  | succ j ih =>
    intro a r e hj hfail he hc
    have ha := hfail a (by rw [List.range'_succ]; exact List.mem_cons_self _ _)
    rcases r with _ | r'
    · omega
    · rw [urlopenGo_step_fail net a r' (errs a) ha.1 ha.2 (by omega)]
      have hrest := ih (a + 1) r' e (by omega)
        (fun k hk => hfail k (by rw [List.range'_succ]; exact List.mem_cons_of_mem _ hk))
        (by have : a + 1 + j = a + (j + 1) := by omega
            rw [this]; exact he) hc
      obtain ⟨h1, h2, h3⟩ := hrest
      refine ⟨h1, ?_, ?_⟩
      · rw [connAttemptNums_start, connAttemptNums_sleep, h2]
        simp [List.range'_succ]
      · rw [connSleeps_start, connSleeps_sleep, h3]
        simp [List.range'_succ]

/-- Master lemma (Fetcher): after `j` attempts failing with caught
classes, a successful attempt ends the loop: the run returns (None), the
destination holds exactly the bytes of the successful attempt, and only
the `j` backoff sleeps before it happened. -/
theorem fetchGo_firstSuccess (isAr : Bool) (net : Nat → FetchAttempt) :
    ∀ j a r file0 sz, j < r →
      (∀ k ∈ List.range' a j, (attemptStep isAr (net k)).retryFail = true) →
      attemptStep isAr (net (a + j)) = .success sz →
      (fetchGo isAr net a r file0).result = .ok () ∧
      (fetchGo isAr net a r file0).file = some sz ∧
      fetchAttemptNums (fetchGo isAr net a r file0).trace = List.range' a (j + 1) ∧
      fetchSleeps (fetchGo isAr net a r file0).trace = (List.range' a j).map (fun k => 2 ^ k) := by
  intro j
  induction j with
  | zero =>
    intro a r file0 sz hj _ hsucc
    rcases r with _ | r'
    · omega
    · rw [fetchGo_success_eq isAr net a r' file0 sz (by simpa using hsucc)]
      simp [fetchAttemptNums_start, fetchAttemptNums_write, fetchAttemptNums_nil,
        fetchSleeps_start, fetchSleeps_write, fetchSleeps_nil, List.range'_succ]
  | succ j ih =>
    intro a r file0 sz hj hfail hsucc
    have ha := hfail a (by rw [List.range'_succ]; exact List.mem_cons_self _ _)
    cases hstep : attemptStep isAr (net a) with
    | success s =>
      rw [hstep] at ha
      simp [AttemptRes.retryFail] at ha
    | fail e w =>
      rw [hstep] at ha
      have hc : caughtFetch (clsOf e) = true := by simpa [AttemptRes.retryFail] using ha
      rcases r with _ | r'
      · omega
      have hr' : r' ≠ 0 := by omega
      have hrest := ih (a + 1) r' none sz (by omega)
        (fun k hk => hfail k (by rw [List.range'_succ]; exact List.mem_cons_of_mem _ hk))
        (by have : a + 1 + j = a + (j + 1) := by omega
            rw [this]; exact hsucc)
      obtain ⟨h1, h2, h3, h4⟩ := hrest
      cases w with
      | some s2 =>
        rw [fetchGo_step_fail_written isAr net a r' file0 e s2 hstep hc hr']
        refine ⟨h1, h2, ?_, ?_⟩
        · rw [fetchAttemptNums_start, fetchAttemptNums_write, fetchAttemptNums_print,
            fetchAttemptNums_sleep, fetchAttemptNums_remove, h3]
          simp [List.range'_succ]
        · rw [fetchSleeps_start, fetchSleeps_write, fetchSleeps_print, fetchSleeps_sleep,
            fetchSleeps_remove, h4]
          simp [List.range'_succ]
      | none =>
        rw [fetchGo_step_fail_nowrite isAr net a r' file0 e hstep hc hr']
        refine ⟨h1, h2, ?_, ?_⟩
        · cases file0 <;>
            · rw [fetchAttemptNums_start, fetchAttemptNums_print, fetchAttemptNums_sleep]
              simp only [List.nil_append, List.cons_append, fetchAttemptNums_remove,
                fetchAttemptNums_append, fetchAttemptNums_nil]
              rw [h3]
              simp [List.range'_succ]
        · cases file0 <;>
            · rw [fetchSleeps_start, fetchSleeps_print, fetchSleeps_sleep]
              simp only [List.nil_append, List.cons_append, fetchSleeps_remove,
                fetchSleeps_append, fetchSleeps_nil]
              rw [h4]
              simp [List.range'_succ]

/-- Master lemma (Fetcher): after `j` attempts failing with caught
classes, an attempt failing with an uncaught class propagates that error
at once: no further attempt, no further sleep. -/
theorem fetchGo_firstUncaught (isAr : Bool) (net : Nat → FetchAttempt) :
    ∀ j a r file0 e w, j < r →
      (∀ k ∈ List.range' a j, (attemptStep isAr (net k)).retryFail = true) →
      attemptStep isAr (net (a + j)) = .fail e w →
      caughtFetch (clsOf e) = false →
      (fetchGo isAr net a r file0).result = .error e ∧
      fetchAttemptNums (fetchGo isAr net a r file0).trace = List.range' a (j + 1) ∧
      fetchSleeps (fetchGo isAr net a r file0).trace = (List.range' a j).map (fun k => 2 ^ k) := by
  intro j
  induction j with
  | zero =>
    intro a r file0 e w hj _ hstep hc
    rcases r with _ | r'
    · omega
    · rw [fetchGo_uncaught isAr net a r' file0 e w (by simpa using hstep) hc]
      cases w <;>
        simp [fetchAttemptNums_start, fetchAttemptNums_write, fetchAttemptNums_nil,
          fetchSleeps_start, fetchSleeps_write, fetchSleeps_nil, List.range'_succ]
  | succ j ih =>
    intro a r file0 e w hj hfail hstep hc
    have ha := hfail a (by rw [List.range'_succ]; exact List.mem_cons_self _ _)
    cases hstepa : attemptStep isAr (net a) with
    | success s =>
      rw [hstepa] at ha
      simp [AttemptRes.retryFail] at ha
    | fail ea wa =>
      rw [hstepa] at ha
      have hca : caughtFetch (clsOf ea) = true := by simpa [AttemptRes.retryFail] using ha
      rcases r with _ | r'
      · omega
      have hr' : r' ≠ 0 := by omega
      have hrest := ih (a + 1) r' none e w (by omega)
        (fun k hk => hfail k (by rw [List.range'_succ]; exact List.mem_cons_of_mem _ hk))
        (by have : a + 1 + j = a + (j + 1) := by omega
            rw [this]; exact hstep) hc
      obtain ⟨h1, h2, h3⟩ := hrest
      cases wa with
      | some s2 =>
        rw [fetchGo_step_fail_written isAr net a r' file0 ea s2 hstepa hca hr']
        refine ⟨h1, ?_, ?_⟩
        · rw [fetchAttemptNums_start, fetchAttemptNums_write, fetchAttemptNums_print,
            fetchAttemptNums_sleep, fetchAttemptNums_remove, h2]
          simp [List.range'_succ]
        · rw [fetchSleeps_start, fetchSleeps_write, fetchSleeps_print, fetchSleeps_sleep,
            fetchSleeps_remove, h3]
          simp [List.range'_succ]
      | none =>
        rw [fetchGo_step_fail_nowrite isAr net a r' file0 ea hstepa hca hr']
        refine ⟨h1, ?_, ?_⟩
        · cases file0 <;>
            · rw [fetchAttemptNums_start, fetchAttemptNums_print, fetchAttemptNums_sleep]
              simp only [List.nil_append, List.cons_append, fetchAttemptNums_remove,
                fetchAttemptNums_append, fetchAttemptNums_nil]
              rw [h2]
              simp [List.range'_succ]
        · cases file0 <;>
            · rw [fetchSleeps_start, fetchSleeps_print, fetchSleeps_sleep]
              simp only [List.nil_append, List.cons_append, fetchSleeps_remove,
                fetchSleeps_append, fetchSleeps_nil]
              rw [h3]
              simp [List.range'_succ]

/-- Master lemma (Fetcher): the destination state recorded at the start of
any attempt is the initial state for the first attempt of the run and
absent for every later attempt — the handler always deletes the file
(albeit after the backoff sleep) before the next attempt begins. -/
theorem fetchGo_attemptStart_file (isAr : Bool) (net : Nat → FetchAttempt) :
    ∀ r a file0 k fs,
      FEvent.attemptStart k fs ∈ (fetchGo isAr net a r file0).trace →
      (k = a ∧ fs = file0) ∨ fs = none := by
  intro r
  induction r with
  | zero =>
    intro a file0 k fs hmem
    simp [fetchGo] at hmem
  | succ r' ih =>
    intro a file0 k fs hmem
    cases hstep : attemptStep isAr (net a) with
    | success sz =>
      rw [fetchGo_success_eq isAr net a r' file0 sz hstep] at hmem
      simp at hmem
      exact Or.inl ⟨hmem.1, hmem.2⟩
    | fail e w =>
      by_cases hc : caughtFetch (clsOf e) = true
      · by_cases hr : r' = 0
        · subst hr
          rw [fetchGo_last_fail isAr net a file0 e w hstep hc] at hmem
          cases w <;> simp at hmem <;> exact Or.inl ⟨hmem.1, hmem.2⟩
        · cases w with
          | some s2 =>
            rw [fetchGo_step_fail_written isAr net a r' file0 e s2 hstep hc hr] at hmem
            simp at hmem
            rcases hmem with ⟨hk, hf⟩ | hrest
            · exact Or.inl ⟨hk, hf⟩
            · rcases ih (a + 1) none k fs hrest with ⟨_, h⟩ | h
              · exact Or.inr h
              · exact Or.inr h
          | none =>
            rw [fetchGo_step_fail_nowrite isAr net a r' file0 e hstep hc hr] at hmem
            cases file0 with
            | none =>
              simp at hmem
              rcases hmem with ⟨hk, hf⟩ | hrest
              · exact Or.inl ⟨hk, hf⟩
              · rcases ih (a + 1) none k fs hrest with ⟨_, h⟩ | h
                · exact Or.inr h
                · exact Or.inr h
            | some s0 =>
              simp at hmem
              rcases hmem with ⟨hk, hf⟩ | hrest
              · exact Or.inl ⟨hk, hf⟩
              · rcases ih (a + 1) none k fs hrest with ⟨_, h⟩ | h
                · exact Or.inr h
                · exact Or.inr h
      · have hc' : caughtFetch (clsOf e) = false := by simpa using hc
        rw [fetchGo_uncaught isAr net a r' file0 e w hstep hc'] at hmem
        cases w <;> simp at hmem <;> exact Or.inl ⟨hmem.1, hmem.2⟩

/-- C1: for every max_retries = n ≥ 1, if every attempt of the Connector
(urlopen_with_retry) or of the Fetcher (urlretrieve_with_retry) fails with
a retryable error, the call raises after exactly n attempts, and the
backoff sleeps are exactly 2^1, 2^2, …, 2^(n-1) time units — the sleep
after the k-th failed attempt, when attempts remain, is 2^k, and no sleep
follows the final failed attempt. -/
theorem retry_schedule_on_exhaustion
    (n : Nat) (hn : 1 ≤ n)
    (netC : Nat → Except PyExc Nat) (errsC : Nat → PyExc)
    (filename : String) (netF : Nat → FetchAttempt) (eF : Nat → PyExc) (wF : Nat → Option Nat)
    (file0 : Option Nat)
    (hC : ∀ k ∈ List.range' 1 n, netC k = .error (errsC k) ∧ caughtConn (clsOf (errsC k)) = true)
    (hF : ∀ k ∈ List.range' 1 n,
      attemptStep (isArchiveName filename) (netF k) = .fail (eF k) (wF k) ∧
        caughtFetch (clsOf (eF k)) = true) :
    (urlopen_with_retry netC n).result = .error (errsC n) ∧
    connAttemptNums (urlopen_with_retry netC n).trace = List.range' 1 n ∧
    connSleeps (urlopen_with_retry netC n).trace = (List.range' 1 (n - 1)).map (fun k => 2 ^ k) ∧
    (urlretrieve_with_retry filename netF n file0).result = .error (eF n) ∧
    fetchAttemptNums (urlretrieve_with_retry filename netF n file0).trace = List.range' 1 n ∧
    fetchSleeps (urlretrieve_with_retry filename netF n file0).trace
      = (List.range' 1 (n - 1)).map (fun k => 2 ^ k) := by
  have hc := urlopenGo_allFail netC errsC n hn 1 hC
  have hf := fetchGo_allFail (isArchiveName filename) netF eF wF n hn 1 file0 hF
  have hidx : 1 + n - 1 = n := by omega
  rw [hidx] at hc hf
  simp only [urlopen_with_retry, urlretrieve_with_retry]
  exact ⟨hc.1, hc.2.1, hc.2.2, hf.1, hf.2.2.1, hf.2.2.2⟩

/-- Witness for C1 at n = 3: three failing attempts on both layers, two
sleeps of 2 and 4 time units, the third error re-raised. -/
theorem retry_schedule_on_exhaustion_witness :
    (1 ≤ 3) ∧
    ((urlopen_with_retry (fun k => .error (.ext .urlError k)) 3).result = .error (.ext .urlError 3) ∧
     connAttemptNums (urlopen_with_retry (fun k => .error (.ext .urlError k)) 3).trace
       = List.range' 1 3 ∧
     connSleeps (urlopen_with_retry (fun k => .error (.ext .urlError k)) 3).trace
       = (List.range' 1 (3 - 1)).map (fun k => 2 ^ k) ∧
     (urlretrieve_with_retry "m.bin" (fun k => .connRaise (.ext .timeoutError k)) 3 none).result
       = .error (.ext .timeoutError 3) ∧
     fetchAttemptNums
       (urlretrieve_with_retry "m.bin" (fun k => .connRaise (.ext .timeoutError k)) 3 none).trace
       = List.range' 1 3 ∧
     fetchSleeps
       (urlretrieve_with_retry "m.bin" (fun k => .connRaise (.ext .timeoutError k)) 3 none).trace
       = (List.range' 1 (3 - 1)).map (fun k => 2 ^ k)) :=
  ⟨by decide,
   retry_schedule_on_exhaustion 3 (by decide)
     (fun k => .error (.ext .urlError k)) (fun k => .ext .urlError k)
     "m.bin" (fun k => .connRaise (.ext .timeoutError k)) (fun k => .ext .timeoutError k)
     (fun _ => none) none (by decide) (by decide)⟩

/-- C8: when the final attempt fails with a retryable error, the error
raised to the caller is the last underlying error itself (the same
exception value, unchanged and unwrapped), for both Connector and
Fetcher. -/
theorem exhaustion_reraises_last_error
    (n : Nat) (hn : 1 ≤ n)
    (netC : Nat → Except PyExc Nat) (errsC : Nat → PyExc)
    (filename : String) (netF : Nat → FetchAttempt) (eF : Nat → PyExc) (wF : Nat → Option Nat)
    (file0 : Option Nat)
    (hC : ∀ k ∈ List.range' 1 n, netC k = .error (errsC k) ∧ caughtConn (clsOf (errsC k)) = true)
    (hF : ∀ k ∈ List.range' 1 n,
      attemptStep (isArchiveName filename) (netF k) = .fail (eF k) (wF k) ∧
        caughtFetch (clsOf (eF k)) = true) :
    (urlopen_with_retry netC n).result = .error (errsC n) ∧
    (urlretrieve_with_retry filename netF n file0).result = .error (eF n) := by
  have hc := urlopenGo_allFail netC errsC n hn 1 hC
  have hf := fetchGo_allFail (isArchiveName filename) netF eF wF n hn 1 file0 hF
  have hidx : 1 + n - 1 = n := by omega
  rw [hidx] at hc hf
  simp only [urlopen_with_retry, urlretrieve_with_retry]
  exact ⟨hc.1, hf.1⟩

/-- Witness for C8 at n = 2 with distinctly tagged error instances: the
propagated exception is the one of attempt 2, identity preserved. -/
theorem exhaustion_reraises_last_error_witness :
    (1 ≤ 2) ∧
    ((urlopen_with_retry (fun k => .error (.ext .urlError (10 + k))) 2).result
       = .error (.ext .urlError 12) ∧
     (urlretrieve_with_retry "m.bin"
        (fun k => .resp (some 500) ⟨470 + 10 * k, true, none⟩) 2 none).result
       = .error (.dlErr (.incomplete 500 490))) :=
  ⟨by decide,
   exhaustion_reraises_last_error 2 (by decide)
     (fun k => .error (.ext .urlError (10 + k))) (fun k => .ext .urlError (10 + k))
     "m.bin" (fun k => .resp (some 500) ⟨470 + 10 * k, true, none⟩)
     (fun k => .dlErr (.incomplete 500 (470 + 10 * k))) (fun k => some (470 + 10 * k))
     none (by decide) (by decide)⟩

/-- C9 (implicit): when the final Fetcher attempt fails after writing
bytes, the partially-written destination file is not deleted: it remains
on disk after the error propagates.  Cleanup runs only on failures with
attempts remaining. -/
theorem final_failure_leaves_partial_file
    (n : Nat) (hn : 1 ≤ n)
    (filename : String) (netF : Nat → FetchAttempt) (eF : Nat → PyExc) (wF : Nat → Option Nat)
    (file0 : Option Nat)
    (hF : ∀ k ∈ List.range' 1 n,
      attemptStep (isArchiveName filename) (netF k) = .fail (eF k) (wF k) ∧
        caughtFetch (clsOf (eF k)) = true)
    (sz : Nat) (hw : wF n = some sz) :
    (urlretrieve_with_retry filename netF n file0).result = .error (eF n) ∧
    (urlretrieve_with_retry filename netF n file0).file = some sz := by
  have hf := fetchGo_allFail (isArchiveName filename) netF eF wF n hn 1 file0 hF
  have hidx : 1 + n - 1 = n := by omega
  rw [hidx] at hf
  simp only [urlretrieve_with_retry]
  refine ⟨hf.1, ?_⟩
  rw [hf.2.1, hw]

/-- Witness for C9 at n = 2: both attempts deliver 480 of 500 declared
bytes; after the final failure the 480-byte partial file is still at the
destination. -/
theorem final_failure_leaves_partial_file_witness :
    (1 ≤ 2) ∧
    ((urlretrieve_with_retry "m.bin" (fun _ => .resp (some 500) ⟨480, true, none⟩) 2 none).result
       = .error (.dlErr (.incomplete 500 480)) ∧
     (urlretrieve_with_retry "m.bin" (fun _ => .resp (some 500) ⟨480, true, none⟩) 2 none).file
       = some 480) :=
  ⟨by decide,
   final_failure_leaves_partial_file 2 (by decide) "m.bin"
     (fun _ => .resp (some 500) ⟨480, true, none⟩)
     (fun _ => .dlErr (.incomplete 500 480)) (fun _ => some 480) none
     (by decide) 480 (by decide)⟩

/-- C2 counterexample: two successful Fetcher calls that stream different
byte counts (1000 bytes with a declared size, 480 bytes with none) return
the very same value — the Python function returns None on success (bare
`return`, utils.py line 106), so the return value records no bytes_written,
no declared_size and no validated flag, and no DownloadOutcome value can be
recovered from it. -/
theorem success_return_records_nothing_cex :
    (urlretrieve_with_retry "a.bin" (fun _ => .resp (some 1000) ⟨1000, true, none⟩) 3 none).result
      = (urlretrieve_with_retry "b.bin" (fun _ => .resp none ⟨480, true, none⟩) 3 none).result ∧
    (urlretrieve_with_retry "a.bin" (fun _ => .resp (some 1000) ⟨1000, true, none⟩) 3 none).result
      = .ok () ∧
    (urlretrieve_with_retry "a.bin" (fun _ => .resp (some 1000) ⟨1000, true, none⟩) 3 none).file
      = some 1000 ∧
    (urlretrieve_with_retry "b.bin" (fun _ => .resp none ⟨480, true, none⟩) 3 none).file
      = some 480 ∧
    (⟨1000, some 1000, true⟩ : DownloadOutcome) ≠ ⟨480, none, true⟩ := by
  refine ⟨by decide, by decide, by decide, by decide, by decide⟩

/-- C2 as amended: a successful Fetcher call returns None (no
DownloadOutcome value); the bytes written are observable only through the
destination file, which after success holds exactly the bytes of the
successful attempt. -/
theorem success_returns_none
    (filename : String) (netF : Nat → FetchAttempt) (n : Nat) (file0 : Option Nat)
    (j sz : Nat) (hj : j < n)
    (hfail : ∀ k ∈ List.range' 1 j, (attemptStep (isArchiveName filename) (netF k)).retryFail = true)
    (hsucc : attemptStep (isArchiveName filename) (netF (1 + j)) = .success sz) :
    (urlretrieve_with_retry filename netF n file0).result = .ok () ∧
    (urlretrieve_with_retry filename netF n file0).file = some sz := by
  have hf := fetchGo_firstSuccess (isArchiveName filename) netF j 1 n file0 sz hj hfail hsucc
  simp only [urlretrieve_with_retry]
  exact ⟨hf.1, hf.2.1⟩

/-- Witness for the amended C2: a first-attempt success of 1000 bytes. -/
theorem success_returns_none_witness :
    ((0 : Nat) < 1) ∧
    ((urlretrieve_with_retry "a.bin" (fun _ => .resp (some 1000) ⟨1000, true, none⟩) 1 none).result
       = .ok () ∧
     (urlretrieve_with_retry "a.bin" (fun _ => .resp (some 1000) ⟨1000, true, none⟩) 1 none).file
       = some 1000) :=
  ⟨by decide,
   success_returns_none "a.bin" (fun _ => .resp (some 1000) ⟨1000, true, none⟩) 1 none 0 1000
     (by decide) (by decide) (by decide)⟩

/-- C3 counterexample: with a declared Content-Length of 0 and a body of
5 bytes, the attempt succeeds even though the streamed count differs from
the declared count — the Python guard `if expected_size and ...`
(utils.py line 87) treats the declared value 0 as falsy and skips the
exact-match check, contradicting the claim for declared value 0. -/
theorem declared_zero_size_check_skipped_cex :
    (urlretrieve_with_retry "a.bin" (fun _ => .resp (some 0) ⟨5, true, none⟩) 1 none).result
      = .ok () ∧
    (urlretrieve_with_retry "a.bin" (fun _ => .resp (some 0) ⟨5, true, none⟩) 1 none).file
      = some 5 ∧
    sizeMismatch (some 0) 5 = false ∧ (5 ≠ 0) := by
  refine ⟨by decide, by decide, by decide, by decide⟩

/-- C3 as amended: the exact-match size check applies only when a nonzero
Content-Length was declared — a streamed count differing from a declared
nonzero count fails with the incomplete-download error; a declared
Content-Length of 0 behaves exactly as an absent header; with no declared
size any non-zero count is accepted (for a non-archive destination). -/
theorem size_check_only_nonzero_declared :
    (∀ (isAr : Bool) (n sz : Nat) (zo : Bool) (tz : Option String), n ≠ 0 → sz ≠ n →
      attemptStep isAr (.resp (some n) ⟨sz, zo, tz⟩)
        = .fail (.dlErr (.incomplete n sz)) (some sz)) ∧
    (∀ (isAr : Bool) (body : BodyDesc),
      attemptStep isAr (.resp (some 0) body) = attemptStep isAr (.resp none body)) ∧
    (∀ (sz : Nat) (zo : Bool) (tz : Option String), sz ≠ 0 →
      attemptStep false (.resp none ⟨sz, zo, tz⟩) = .success sz) := by
  refine ⟨?_, ?_, ?_⟩
  · intro isAr n sz zo tz hn hsz
    simp [attemptStep, sizeMismatch, bne_iff_ne, hn, hsz]
  · intro isAr body
    simp [attemptStep, sizeMismatch]
  · intro sz zo tz hsz
    simp [attemptStep, sizeMismatch, hsz]

/-- Witness for the amended C3: declared 500 with 480 streamed fails as
incomplete; declared 0 behaves as absent; absent with 480 streamed
succeeds. -/
theorem size_check_only_nonzero_declared_witness :
    attemptStep false (.resp (some 500) ⟨480, true, none⟩)
      = .fail (.dlErr (.incomplete 500 480)) (some 480) ∧
    attemptStep true (.resp (some 0) ⟨5, true, none⟩)
      = attemptStep true (.resp none ⟨5, true, none⟩) ∧
    attemptStep false (.resp none ⟨480, true, none⟩) = .success 480 :=
  ⟨size_check_only_nonzero_declared.1 false 500 480 true none (by decide) (by decide),
   size_check_only_nonzero_declared.2.1 true ⟨5, true, none⟩,
   size_check_only_nonzero_declared.2.2 480 true none (by decide)⟩

/-- C4: an attempt whose response body is zero bytes never succeeds,
whatever the declared Content-Length (present, absent, zero or nonzero)
and whatever the destination type: the size-mismatch check or the
empty-download check fails it. -/
theorem zero_byte_response_never_succeeds
    (isAr : Bool) (cl : Option Nat) (zo : Bool) (tz : Option String) :
    (attemptStep isAr (.resp cl ⟨0, zo, tz⟩)).isSuccess = false := by
  rcases cl with _ | n
  · simp [attemptStep, sizeMismatch, AttemptRes.isSuccess]
  · by_cases hn : n = 0
    · subst hn
      simp [attemptStep, sizeMismatch, AttemptRes.isSuccess]
    · simp [attemptStep, sizeMismatch, bne_iff_ne, hn, AttemptRes.isSuccess]
      rw [if_neg (fun h0 => hn h0.symm)]

/-- C5: for a destination path ending in .vsix or .zip, a body that is not
a structurally valid ZIP archive (the zipfile oracle raises BadZipFile)
fails the attempt with the not-a-valid-archive error, even when the byte
count matched the declared Content-Length exactly and was non-zero; a
single-attempt call then raises that error. -/
theorem invalid_archive_attempt_fails
    (filename : String) (hext : isArchiveName filename = true)
    (sz : Nat) (hsz : sz ≠ 0) (tz : Option String) :
    attemptStep (isArchiveName filename) (.resp (some sz) ⟨sz, false, tz⟩)
      = .fail (.dlErr .badArchive) (some sz) ∧
    (urlretrieve_with_retry filename (fun _ => .resp (some sz) ⟨sz, false, tz⟩) 1 none).result
      = .error (.dlErr .badArchive) := by
  have hstep : attemptStep (isArchiveName filename) (.resp (some sz) ⟨sz, false, tz⟩)
      = .fail (.dlErr .badArchive) (some sz) := by
    rw [hext]
    simp [attemptStep, sizeMismatch, hsz]
  refine ⟨hstep, ?_⟩
  have hlast := fetchGo_last_fail (isArchiveName filename)
    (fun _ => .resp (some sz) ⟨sz, false, tz⟩) 1 none (.dlErr .badArchive) (some sz) hstep
    (by decide)
  simp only [urlretrieve_with_retry]
  rw [hlast]

/-- Witness for C5: a 200-byte HTML page saved as pkg.vsix with the
declared length matched exactly. -/
theorem invalid_archive_attempt_fails_witness :
    isArchiveName "pkg.vsix" = true ∧ ((200 : Nat) ≠ 0) ∧
    (attemptStep (isArchiveName "pkg.vsix") (.resp (some 200) ⟨200, false, none⟩)
       = .fail (.dlErr .badArchive) (some 200) ∧
     (urlretrieve_with_retry "pkg.vsix" (fun _ => .resp (some 200) ⟨200, false, none⟩) 1 none).result
       = .error (.dlErr .badArchive)) :=
  ⟨by decide, by decide,
   invalid_archive_attempt_fails "pkg.vsix" (by decide) 200 (by decide) none⟩

/-- C6 counterexample: in the retry handler the backoff sleep runs before
the partial file is removed (utils.py runs time.sleep on line 114 and
os.remove on lines 115-116), so during the whole backoff sleep the
destination still holds the truncated 480-byte file: the trace records the
sleep event with the partial file present and the removal only after it.
The claim that the file is deleted before the sleep begins is false. -/
theorem partial_file_present_during_backoff_cex :
    (urlretrieve_with_retry "a.bin"
        (fun k => if k = 1 then .resp (some 500) ⟨480, true, none⟩
                  else .resp (some 500) ⟨500, true, none⟩) 3 none).trace
      = [.attemptStart 1 none, .fileWrite 480, .printRetry 1 2, .sleep 2 (some 480),
         .remove 480, .attemptStart 2 none, .fileWrite 500] ∧
    FEvent.sleep 2 (some 480) ∈
      (urlretrieve_with_retry "a.bin"
        (fun k => if k = 1 then .resp (some 500) ⟨480, true, none⟩
                  else .resp (some 500) ⟨500, true, none⟩) 3 none).trace := by
  have ht : (urlretrieve_with_retry "a.bin"
      (fun k => if k = 1 then .resp (some 500) ⟨480, true, none⟩
                else .resp (some 500) ⟨500, true, none⟩) 3 none).trace
      = [.attemptStart 1 none, .fileWrite 480, .printRetry 1 2, .sleep 2 (some 480),
         .remove 480, .attemptStart 2 none, .fileWrite 500] := by decide
  rw [ht]
  exact ⟨rfl, by simp⟩

/-- C6 as amended: the partial file of a failed attempt is deleted after
the backoff sleep but before the next attempt begins, so the destination
path holds no partial file at the start of every attempt after the first
(during the backoff sleep itself the partial file may still be present). -/
theorem no_partial_file_at_next_attempt
    (filename : String) (net : Nat → FetchAttempt) (n : Nat) (file0 : Option Nat)
    (k : Nat) (fs : Option Nat) (hk : 2 ≤ k)
    (hmem : FEvent.attemptStart k fs ∈ (urlretrieve_with_retry filename net n file0).trace) :
    fs = none := by
  simp only [urlretrieve_with_retry] at hmem
  rcases fetchGo_attemptStart_file (isArchiveName filename) net n 1 file0 k fs hmem
    with ⟨hk1, _⟩ | h
  · omega
  · exact h

/-- Witness for the amended C6: in the two-attempt run of the C6 scenario
the second attempt starts with the destination path absent. -/
theorem no_partial_file_at_next_attempt_witness :
    (2 ≤ 2) ∧ (none : Option Nat) = none :=
  ⟨by decide,
   no_partial_file_at_next_attempt "a.bin"
     (fun k => if k = 1 then .resp (some 500) ⟨480, true, none⟩
               else .resp (some 500) ⟨500, true, none⟩) 3 none 2 none (by decide)
     (by rw [(show (urlretrieve_with_retry "a.bin"
            (fun k => if k = 1 then .resp (some 500) ⟨480, true, none⟩
                      else .resp (some 500) ⟨500, true, none⟩) 3 none).trace
           = [.attemptStart 1 none, .fileWrite 480, .printRetry 1 2, .sleep 2 (some 480),
              .remove 480, .attemptStart 2 none, .fileWrite 500] from by decide)]
         simp)⟩

/-- C7 counterexample: a PermissionError raised while opening the
destination file is a subclass of OSError, which the Fetcher except clause
catches, so it is retried (the run below sleeps once and then succeeds on
attempt 2) rather than propagating immediately as the claim states for
permission denied. -/
theorem permission_denied_is_retried_cex :
    isSubclassOf .permissionError .osError = true ∧
    caughtFetch .permissionError = true ∧
    (urlretrieve_with_retry "a.bin"
        (fun k => if k = 1 then .openFileRaise none (.ext .permissionError 7)
                  else .resp none ⟨10, true, none⟩) 3 none)
      = ⟨.ok (), some 10,
         [.attemptStart 1 none, .printRetry 1 2, .sleep 2 none,
          .attemptStart 2 none, .fileWrite 10]⟩ := by
  refine ⟨by decide, by decide, by decide⟩

/-- C7 as amended: a failure whose class is caught by neither except
clause (not in the OSError tree, e.g. a ValueError from a malformed URL)
propagates immediately on first occurrence from both Connector and
Fetcher, consuming no further attempt and causing no further sleep;
permission denied, by contrast, is an OSError and is retried. -/
theorem uncaught_class_propagates_immediately
    (n j : Nat) (hj : j < n)
    (netC : Nat → Except PyExc Nat) (errsC : Nat → PyExc) (e : PyExc)
    (hCpre : ∀ k ∈ List.range' 1 j, netC k = .error (errsC k) ∧ caughtConn (clsOf (errsC k)) = true)
    (hCe : netC (1 + j) = .error e) (hCun : caughtConn (clsOf e) = false)
    (filename : String) (netF : Nat → FetchAttempt) (file0 : Option Nat)
    (e2 : PyExc) (w2 : Option Nat)
    (hFpre : ∀ k ∈ List.range' 1 j, (attemptStep (isArchiveName filename) (netF k)).retryFail = true)
    (hFe : attemptStep (isArchiveName filename) (netF (1 + j)) = .fail e2 w2)
    (hFun : caughtFetch (clsOf e2) = false) :
    (urlopen_with_retry netC n).result = .error e ∧
    connAttemptNums (urlopen_with_retry netC n).trace = List.range' 1 (j + 1) ∧
    connSleeps (urlopen_with_retry netC n).trace = (List.range' 1 j).map (fun k => 2 ^ k) ∧
    (urlretrieve_with_retry filename netF n file0).result = .error e2 ∧
    fetchAttemptNums (urlretrieve_with_retry filename netF n file0).trace
      = List.range' 1 (j + 1) ∧
    fetchSleeps (urlretrieve_with_retry filename netF n file0).trace
      = (List.range' 1 j).map (fun k => 2 ^ k) := by
  have hc := urlopenGo_firstUncaught netC errsC j 1 n e hj hCpre hCe hCun
  have hf := fetchGo_firstUncaught (isArchiveName filename) netF j 1 n file0 e2 w2 hj
    hFpre hFe hFun
  simp only [urlopen_with_retry, urlretrieve_with_retry]
  exact ⟨hc.1, hc.2.1, hc.2.2, hf.1, hf.2.1, hf.2.2⟩

/-- Witness for the amended C7: a first-attempt ValueError (malformed
URL) aborts both layers at once — one attempt, no sleep — though two more
attempts were allowed. -/
theorem uncaught_class_propagates_immediately_witness :
    ((0 : Nat) < 3) ∧
    ((urlopen_with_retry (fun _ => .error (.ext .valueError 5)) 3).result
       = .error (.ext .valueError 5) ∧
     connAttemptNums (urlopen_with_retry (fun _ => .error (.ext .valueError 5)) 3).trace
       = List.range' 1 (0 + 1) ∧
     connSleeps (urlopen_with_retry (fun _ => .error (.ext .valueError 5)) 3).trace
       = (List.range' 1 0).map (fun k => 2 ^ k) ∧
     (urlretrieve_with_retry "m.bin" (fun _ => .connRaise (.ext .valueError 6)) 3 none).result
       = .error (.ext .valueError 6) ∧
     fetchAttemptNums
       (urlretrieve_with_retry "m.bin" (fun _ => .connRaise (.ext .valueError 6)) 3 none).trace
       = List.range' 1 (0 + 1) ∧
     fetchSleeps
       (urlretrieve_with_retry "m.bin" (fun _ => .connRaise (.ext .valueError 6)) 3 none).trace
       = (List.range' 1 0).map (fun k => 2 ^ k)) :=
  ⟨by decide,
   uncaught_class_propagates_immediately 3 0 (by decide)
     (fun _ => .error (.ext .valueError 5)) (fun _ => .ext .valueError 5) (.ext .valueError 5)
     (by decide) (by decide) (by decide)
     "m.bin" (fun _ => .connRaise (.ext .valueError 6)) none (.ext .valueError 6) none
     (by decide) (by decide) (by decide)⟩

/-- C10 (implicit): the archive validation accepts a well-formed ZIP
container whose member CRC check fails — only a raised BadZipFile fails
the attempt, and the name of the bad member returned by testzip()
(utils.py line 100) is discarded, whatever it is; the run below downloads
such an archive to pkg.zip and succeeds. -/
theorem crc_mismatch_archive_accepted :
    (∀ tz : Option String, attemptStep true (.resp (some 100) ⟨100, true, tz⟩) = .success 100) ∧
    isArchiveName "pkg.zip" = true ∧
    (urlretrieve_with_retry "pkg.zip"
        (fun _ => .resp (some 100) ⟨100, true, some "payload.bin"⟩) 3 none).result = .ok () ∧
    (urlretrieve_with_retry "pkg.zip"
        (fun _ => .resp (some 100) ⟨100, true, some "payload.bin"⟩) 3 none).file = some 100 := by
  exact ⟨fun tz => rfl, by decide, by decide, by decide⟩

end AirgapRetry
